import Mathlib

set_option maxHeartbeats 1000000

/-!
Shallow embedding of the acceleration-structure management core of the
RayTracedGL1 renderer: ASManager.cpp (BLAS/TLAS lifecycle) and the
shader-side geometry access of Shaders/VertexData.inl, together with the
constants of the generated shader-common header.

Machine integers are modelled as Nat; the uint32 sentinel is the explicit
constant UINT32_MAX.  GPU handles and buffers are modelled by validity
flags, sizes and an allocation generation counter; floating-point vertex
and matrix arithmetic is abstracted by type parameters with uninterpreted
operations, since the verified properties are control-flow properties.
Definitions whose defining source file is not part of the provided sources
are marked as modelled from the spec in their doc comment.
-/

/-- Sentinel used throughout the source for absent data and failed adds. -/
def UINT32_MAX : Nat := 4294967295

/-- From the generated shader-common header. -/
def MAX_BOTTOM_LEVEL_GEOMETRIES_COUNT : Nat := 4096

/-- From the generated shader-common header: declared maximum TLAS instance count. -/
def MAX_TOP_LEVEL_INSTANCE_COUNT : Nat := 45

/-- From Common.h. -/
def MAX_FRAMES_IN_FLIGHT : Nat := 2

/-- TryBuildTLAS declares a local scratch array of exactly 32 instances. -/
def instancesScratchCount : Nat := 32

/-- Length of the local offset table declared in TryBuildTLAS. -/
def instanceGeomInfoOffsetLen : Nat := MAX_TOP_LEVEL_INSTANCE_COUNT * 4

/-- Bound used by the assertion after each instance write in TryBuildTLAS. -/
def tlasInstanceCountAssertBound : Nat := MAX_TOP_LEVEL_INSTANCE_COUNT

/-- Instance capacity of each per-frame TLAS instance buffer created in the constructor. -/
def instanceBufferCapacity : Nat := MAX_TOP_LEVEL_INSTANCE_COUNT

/-- From the generated shader-common header. -/
def INSTANCE_CUSTOM_INDEX_FLAG_DYNAMIC : Nat := 1

/-- Modelled from the spec: the traversal-mask bit for shadow rays used by
SetupTLASInstance; its defining generated header version is not among the
provided sources, only that it is a designated nonzero 8-bit mask bit. -/
def INSTANCE_MASK_HAS_SHADOWS : Nat := 2

/-- From the generated shader-common header, named SBT_INDEX_HITGROUP_FULLY_OPAQUE there. -/
def SBT_FULLY_OPAQUE_INDEX : Nat := 0

/-- From the generated shader-common header, named SBT_INDEX_HITGROUP_ALPHA_TESTED there. -/
def SBT_ALPHA_TESTED_INDEX : Nat := 1

/-- Modelled from the spec: hit-group index for the blend-additive pass-through
class, named SBT_INDEX_HITGROUP_BLEND_ADDITIVE in the source; absent from the
provided generated header, distinct from the other hit-group indices. -/
def SBT_BLEND_ADDITIVE_INDEX : Nat := 2

/-- Modelled from the spec: hit-group index for the blend-under pass-through
class, named SBT_INDEX_HITGROUP_BLEND_UNDER in the source. -/
def SBT_BLEND_UNDER_INDEX : Nat := 3

/-- From the generated shader-common header: bit 31. -/
def GEOM_INST_FLAG_IS_MOVABLE : Nat := 2147483648

/-!
Filter tags.  Modelled from the spec: a filter tag is a bitmask combining one
change-frequency class bit with one pass-through class bit; the header that
defines VertexCollectorFilterTypeFlagBits is not among the provided sources.
The concrete bit positions are irrelevant to the verified properties; the
bits only need to be distinct single bits.
-/

def CF_STATIC_NON_MOVABLE : Nat := 1

def CF_STATIC_MOVABLE : Nat := 2

def CF_DYNAMIC : Nat := 4

def PT_OPAQUE_BIT : Nat := 8

def PT_ALPHA_TESTED : Nat := 16

def PT_BLEND_ADDITIVE : Nat := 32

def PT_BLEND_UNDER : Nat := 64

def MASK_PASS_THROUGH_GROUP : Nat :=
  PT_OPAQUE_BIT ||| PT_ALPHA_TESTED ||| PT_BLEND_ADDITIVE ||| PT_BLEND_UNDER

/-- The staticFlags mask formed in SubmitStaticGeometry. -/
def staticFlagsMask : Nat := CF_STATIC_NON_MOVABLE ||| CF_STATIC_MOVABLE

/-- Iteration order of change-frequency classes in the ASManager constructor. -/
def changeFrequencyList : List Nat := [CF_STATIC_NON_MOVABLE, CF_STATIC_MOVABLE, CF_DYNAMIC]

/-- Iteration order of pass-through classes in the ASManager constructor. -/
def passThroughList : List Nat := [PT_OPAQUE_BIT, PT_ALPHA_TESTED, PT_BLEND_ADDITIVE, PT_BLEND_UNDER]

/-- All filter-group tags, in constructor iteration order. -/
def allFilters : List Nat :=
  changeFrequencyList.flatMap (fun cf => passThroughList.map (fun pt => cf ||| pt))

/-- Filters of the bottom-level structures placed in allStaticBlas by the constructor. -/
def staticBlasFilters : List Nat := allFilters.filter (fun f => f &&& CF_DYNAMIC == 0)

/-- Filters of the bottom-level structures placed in each allDynamicBlas list. -/
def dynamicBlasFilters : List Nat := allFilters.filter (fun f => f &&& CF_DYNAMIC != 0)

/-- Modelled from the spec: VertexCollectorFilterTypeFlagsToOffset assigns each
filter group a distinct dense index; its defining source file is not among the
provided sources.  Modelled as the position in constructor iteration order. -/
def VertexCollectorFilterTypeFlagsToOffset (f : Nat) : Nat :=
  allFilters.findIdx (fun g => g == f)

/-- The value written to the offset table for a filter group by TryBuildTLAS. -/
def offsetTableValue (f : Nat) : Nat :=
  VertexCollectorFilterTypeFlagsToOffset f * MAX_BOTTOM_LEVEL_GEOMETRIES_COUNT

/-- One geometry record held by a vertex collector.  Only the fields relevant to
the verified properties are modelled: the filter group the record was routed to,
its transform and an identifier standing for the uploaded payload. -/
structure GeomRec where
  filter : Nat
  transform : Nat
  uploadId : Nat
  deriving DecidableEq, Repr

/-- Modelled from the spec: a vertex collector accumulates geometry records
partitioned into filter groups; VertexCollector.cpp is not among the provided
sources.  The record list is append-only between resets, so record indices are
stable, matching the spec contract of addGeometry. -/
structure Collector where
  recs : List GeomRec
  deriving DecidableEq, Repr

/-- Records of one exact filter group, as returned by GetASGeometries. -/
def Collector.getASGeometries (c : Collector) (f : Nat) : List GeomRec :=
  c.recs.filter (fun r => r.filter == f)

/-- AreGeometriesEmpty: no record belongs to a group intersecting the mask. -/
def Collector.areGeometriesEmpty (c : Collector) (mask : Nat) : Bool :=
  c.recs.all (fun r => r.filter &&& mask == 0)

/-- Modelled from the spec: addGeometry appends the record to its group and
returns a stable geometry index. -/
def Collector.addGeometry (c : Collector) (r : GeomRec) : Collector × Nat :=
  ({ recs := c.recs ++ [r] }, c.recs.length)

/-- Reset discards all filter-group contents. -/
def Collector.reset (_ : Collector) : Collector := { recs := [] }

/-- Modelled from the spec: updateTransform mutates only the transform field of
the already-uploaded record at the given index. -/
def updateTransformAt : List GeomRec → Nat → Nat → List GeomRec
  | [], _, _ => []
  | r :: rs, 0, t => { r with transform := t } :: rs
  | r :: rs, n + 1, t => r :: updateTransformAt rs n t

/-- Collector updateTransform. -/
def Collector.updateTransform (c : Collector) (idx t : Nat) : Collector :=
  { recs := updateTransformAt c.recs idx t }

/-- One AccelerationStructure record of ASManager: owning filter tag, native
handle validity, and the backing buffer modelled by an initialization flag, a
size and an allocation generation counter (bumped on each buffer Init, so an
unchanged generation means the same buffer allocation). -/
structure AccelStruct where
  filter : Nat
  handleValid : Bool := false
  bufInitted : Bool := false
  bufSize : Nat := 0
  bufGen : Nat := 0
  deriving DecidableEq, Repr

/-- DestroyAS: destroy the buffer and null the native handle. -/
def destroyAS (a : AccelStruct) : AccelStruct :=
  { a with handleValid := false, bufInitted := false, bufSize := 0 }

/-- CreateASBuffer: initialize a fresh backing buffer of the given size. -/
def createASBuffer (a : AccelStruct) (size : Nat) : AccelStruct :=
  { a with bufInitted := true, bufSize := size, bufGen := a.bufGen + 1 }

/-- IsFastBuild: fast build for dynamic, fast trace for static. -/
def isFastBuild (f : Nat) : Bool := f &&& CF_DYNAMIC != 0

/-- One build request staged on the ASBuilder queue. -/
structure BuildReq where
  filter : Nat
  geomCount : Nat
  reqSize : Nat
  fastTrace : Bool
  update : Bool
  deriving DecidableEq, Repr

/-- SetupBLAS: skip on empty geometry; otherwise query the required build size,
destroy and recreate the structure and its buffer when the buffer is
uninitialized or too small, and stage a non-update build request.  The size
query GetBottomBuildSizes is abstracted by the function parameter bsize. -/
def setupBLAS (bsize : List GeomRec → Nat) (col : Collector) (a : AccelStruct) :
    AccelStruct × Option BuildReq :=
  let geoms := col.getASGeometries a.filter
  if geoms.isEmpty then (a, none)
  else
    let req := bsize geoms
    let a1 :=
      if a.bufInitted = false ∨ a.bufSize < req then
        { createASBuffer (destroyAS a) req with handleValid := true }
      else a
    (a1, some { filter := a.filter, geomCount := geoms.length, reqSize := req,
                fastTrace := !isFastBuild a.filter, update := false })

/-- UpdateBLAS: skip on empty geometry; otherwise stage an update-mode build
request.  It never mutates the structure or its buffer (it only asserts that
the buffer is initialized and large enough). -/
def updateBLAS (bsize : List GeomRec → Nat) (col : Collector) (a : AccelStruct) :
    Option BuildReq :=
  let geoms := col.getASGeometries a.filter
  if geoms.isEmpty then none
  else some { filter := a.filter, geomCount := geoms.length, reqSize := bsize geoms,
              fastTrace := !isFastBuild a.filter, update := true }

/-- The fields of a VkAccelerationStructureInstanceKHR written by
SetupTLASInstance that the verified properties mention.  The geometry-instance
flag bits are modelled as booleans. -/
structure TlasInstance where
  customIndex : Nat
  mask : Nat
  sbtOffset : Nat
  forceOpaqueFlag : Bool
  forceNoOpaqueFlag : Bool
  cullDisableFlag : Bool
  deriving DecidableEq, Repr

/-- The instance record SetupTLASInstance fills for a given filter tag.  The
mask complement is the 8-bit truncation of the C bitwise complement, since the
Vulkan instance mask is an 8-bit field. -/
def tlasInstanceForFilter (f : Nat) : TlasInstance :=
  { customIndex := if f &&& CF_DYNAMIC != 0 then INSTANCE_CUSTOM_INDEX_FLAG_DYNAMIC else 0
    mask := if f &&& (PT_BLEND_ADDITIVE ||| PT_BLEND_UNDER) != 0 then
              255 ^^^ INSTANCE_MASK_HAS_SHADOWS
            else INSTANCE_MASK_HAS_SHADOWS
    sbtOffset :=
      if f &&& PT_OPAQUE_BIT != 0 then SBT_FULLY_OPAQUE_INDEX
      else if f &&& PT_ALPHA_TESTED != 0 then SBT_ALPHA_TESTED_INDEX
      else if f &&& PT_BLEND_ADDITIVE != 0 then SBT_BLEND_ADDITIVE_INDEX
      else if f &&& PT_BLEND_UNDER != 0 then SBT_BLEND_UNDER_INDEX
      else 0
    forceOpaqueFlag := f &&& PT_OPAQUE_BIT != 0
    forceNoOpaqueFlag := !(f &&& PT_OPAQUE_BIT != 0)
    cullDisableFlag := true }

/-- SetupTLASInstance: returns false (writes nothing) on a null handle,
otherwise fills the instance from the filter tag. -/
def setupTLASInstance (a : AccelStruct) : Option TlasInstance :=
  if a.handleValid then some (tlasInstanceForFilter a.filter) else none

/-- The instance-assembly loops of TryBuildTLAS, started at instance count n:
for each bottom-level structure in order, a structure with a valid handle
contributes a write of the instance at index instanceCount into the scratch
array, and a write of the group base offset at flat index instanceCount * 4
into the local offset table, then increments instanceCount.  A structure with
a null handle contributes nothing.  The result is (indexed instance writes,
indexed offset-table writes, final instance count); no bound is checked. -/
def assembleTLASFrom : Nat → List AccelStruct → List (Nat × TlasInstance) × List (Nat × Nat) × Nat
  | n, [] => ([], [], n)
  | n, a :: rest =>
    match setupTLASInstance a with
    | none => assembleTLASFrom n rest
    | some inst =>
      let r := assembleTLASFrom (n + 1) rest
      ((n, inst) :: r.1, (n * 4, offsetTableValue a.filter) :: r.2.1, r.2.2)

/-- TLAS instance assembly over the concatenation of the static and the current
frame dynamic bottom-level structure lists, as in TryBuildTLAS. -/
def assembleTLAS (l : List AccelStruct) : List (Nat × TlasInstance) × List (Nat × Nat) × Nat :=
  assembleTLASFrom 0 l

/-- Geometry classification of an upload record (RgGeometryType). -/
inductive RgGeometryType
  | STATIC
  | STATIC_MOVABLE
  | DYNAMIC
  deriving DecidableEq, Repr

/-- The parts of an RgGeometryUploadInfo the verified properties mention: its
classification, its pass-through class bit (derived in the source from the
material blending flags), its transform and an identifier for the payload. -/
structure RgGeometryUploadInfo where
  geomType : RgGeometryType
  passThroughBit : Nat
  transform : Nat
  uploadId : Nat
  deriving DecidableEq, Repr

/-- Change-frequency bit of a geometry type. -/
def cfBitOf : RgGeometryType → Nat
  | .STATIC => CF_STATIC_NON_MOVABLE
  | .STATIC_MOVABLE => CF_STATIC_MOVABLE
  | .DYNAMIC => CF_DYNAMIC

/-- The collector record produced for an upload. -/
def geomRecOf (info : RgGeometryUploadInfo) : GeomRec :=
  { filter := cfBitOf info.geomType ||| info.passThroughBit
    transform := info.transform
    uploadId := info.uploadId }

/-- The ASManager state: the static bottom-level structure list, the per-frame
dynamic bottom-level structure lists, the static and per-frame dynamic
collectors, and the log of build requests flushed to the GPU so far
(BuildBottomLevel appends the staged queue to this log). -/
structure ASState where
  staticBlas : List AccelStruct
  dynamicBlas0 : List AccelStruct
  dynamicBlas1 : List AccelStruct
  colStatic : Collector
  colDynamic0 : Collector
  colDynamic1 : Collector
  buildLog : List BuildReq
  deriving DecidableEq, Repr

/-- The dynamic BLAS list of a frame slot. -/
def ASState.dynBlas (s : ASState) (frame : Nat) : List AccelStruct :=
  if frame == 0 then s.dynamicBlas0 else s.dynamicBlas1

/-- The dynamic collector of a frame slot. -/
def ASState.colDyn (s : ASState) (frame : Nat) : Collector :=
  if frame == 0 then s.colDynamic0 else s.colDynamic1

/-- Replace the dynamic BLAS list of a frame slot. -/
def ASState.setDynBlas (s : ASState) (frame : Nat) (l : List AccelStruct) : ASState :=
  if frame == 0 then { s with dynamicBlas0 := l } else { s with dynamicBlas1 := l }

/-- Replace the dynamic collector of a frame slot. -/
def ASState.setColDyn (s : ASState) (frame : Nat) (c : Collector) : ASState :=
  if frame == 0 then { s with colDynamic0 := c } else { s with colDynamic1 := c }

/-- The state after the ASManager constructor: one BLAS record per filter group,
all with null handles and uninitialized buffers, and empty collectors. -/
def initState : ASState :=
  { staticBlas := staticBlasFilters.map (fun f => { filter := f })
    dynamicBlas0 := dynamicBlasFilters.map (fun f => { filter := f })
    dynamicBlas1 := dynamicBlasFilters.map (fun f => { filter := f })
    colStatic := { recs := [] }
    colDynamic0 := { recs := [] }
    colDynamic1 := { recs := [] }
    buildLog := [] }

/-- AddStaticGeometry: static and static-movable uploads go to the static
collector; any other classification adds nothing and returns the sentinel
(after a debug assertion in the source). -/
def addStaticGeometry (s : ASState) (info : RgGeometryUploadInfo) : ASState × Nat :=
  if info.geomType = RgGeometryType.STATIC ∨ info.geomType = RgGeometryType.STATIC_MOVABLE then
    let r := s.colStatic.addGeometry (geomRecOf info)
    ({ s with colStatic := r.1 }, r.2)
  else (s, UINT32_MAX)

/-- AddDynamicGeometry: dynamic uploads go to the frame collector; any other
classification adds nothing and returns the sentinel. -/
def addDynamicGeometry (s : ASState) (info : RgGeometryUploadInfo) (frame : Nat) : ASState × Nat :=
  if info.geomType = RgGeometryType.DYNAMIC then
    let r := (s.colDyn frame).addGeometry (geomRecOf info)
    (s.setColDyn frame r.1, r.2)
  else (s, UINT32_MAX)

/-- BeginStaticGeometry: reset the static collector and begin collecting. -/
def beginStaticGeometry (s : ASState) : ASState :=
  { s with colStatic := s.colStatic.reset }

/-- ResetStaticGeometry. -/
def resetStaticGeometry (s : ASState) : ASState :=
  { s with colStatic := s.colStatic.reset }

/-- BeginDynamicGeometry: reset the frame dynamic collector and begin collecting. -/
def beginDynamicGeometry (frame : Nat) (s : ASState) : ASState :=
  s.setColDyn frame ((s.colDyn frame).reset)

/-- The destruction applied to every static-class BLAS at the start of
SubmitStaticGeometry. -/
def destroyIfStaticFilter (a : AccelStruct) : AccelStruct :=
  if a.filter &&& staticFlagsMask != 0 then destroyAS a else a

/-- The static setup loop of SubmitStaticGeometry: SetupBLAS on every BLAS
whose filter has a static-class bit, collecting the staged build requests in
loop order. -/
def setupBLASList (bsize : List GeomRec → Nat) (col : Collector) :
    List AccelStruct → List AccelStruct × List BuildReq
  | [] => ([], [])
  | a :: rest =>
    let tail := setupBLASList bsize col rest
    if a.filter &&& staticFlagsMask != 0 then
      let p := setupBLAS bsize col a
      (p.1 :: tail.1, p.2.toList ++ tail.2)
    else (a :: tail.1, tail.2)

/-- The dynamic setup loop of SubmitDynamicGeometry: SetupBLAS on every BLAS of
the frame list unconditionally. -/
def setupBLASListAll (bsize : List GeomRec → Nat) (col : Collector) :
    List AccelStruct → List AccelStruct × List BuildReq
  | [] => ([], [])
  | a :: rest =>
    let tail := setupBLASListAll bsize col rest
    let p := setupBLAS bsize col a
    (p.1 :: tail.1, p.2.toList ++ tail.2)

/-- SubmitStaticGeometry: destroy every static-class BLAS, skip entirely when
the static groups hold no data, otherwise set up each static-class BLAS and
flush the staged builds. -/
def submitStaticGeometry (bsize : List GeomRec → Nat) (s : ASState) : ASState :=
  let blas1 := s.staticBlas.map destroyIfStaticFilter
  if s.colStatic.areGeometriesEmpty staticFlagsMask then { s with staticBlas := blas1 }
  else
    let p := setupBLASList bsize s.colStatic blas1
    { s with staticBlas := p.1, buildLog := s.buildLog ++ p.2 }

/-- SubmitDynamicGeometry: skip when the dynamic groups of the frame collector
hold no data (without destroying the frame BLAS handles), otherwise set up
every dynamic BLAS of the frame and flush the staged builds. -/
def submitDynamicGeometry (bsize : List GeomRec → Nat) (frame : Nat) (s : ASState) : ASState :=
  let col := s.colDyn frame
  if col.areGeometriesEmpty CF_DYNAMIC then s
  else
    let p := setupBLASListAll bsize col (s.dynBlas frame)
    { s.setDynBlas frame p.1 with buildLog := s.buildLog ++ p.2 }

/-- UpdateStaticMovableTransform forwards to the static collector. -/
def updateStaticMovableTransform (idx t : Nat) (s : ASState) : ASState :=
  { s with colStatic := s.colStatic.updateTransform idx t }

/-- The update loop of ResubmitStaticMovable: UpdateBLAS on every static BLAS
whose filter has the movable bit. -/
def updateBLASList (bsize : List GeomRec → Nat) (col : Collector) :
    List AccelStruct → List BuildReq
  | [] => []
  | a :: rest =>
    let tail := updateBLASList bsize col rest
    if a.filter &&& CF_STATIC_MOVABLE != 0 then (updateBLAS bsize col a).toList ++ tail
    else tail

/-- ResubmitStaticMovable: skip entirely when no movable geometry exists,
otherwise stage an in-place update for every movable BLAS and flush. -/
def resubmitStaticMovable (bsize : List GeomRec → Nat) (s : ASState) : ASState :=
  if s.colStatic.areGeometriesEmpty CF_STATIC_MOVABLE then s
  else { s with buildLog := s.buildLog ++ updateBLASList bsize s.colStatic s.staticBlas }

/-- The TLAS assembly of TryBuildTLAS for a frame: static structures first,
then the frame dynamic structures; returns the indexed writes, the final
instance count and whether anything was produced. -/
def tryBuildTLAS (s : ASState) (frame : Nat) :
    (List (Nat × TlasInstance) × List (Nat × Nat) × Nat) × Bool :=
  let r := assembleTLAS (s.staticBlas ++ s.dynBlas frame)
  (r, r.2.2 != 0)

/-- Lookup of an indexed write list at a flat index. -/
def lookupWrite : List (Nat × Nat) → Nat → Option Nat
  | [], _ => none
  | (i, v) :: rest, j => if i == j then some v else lookupWrite rest j

/-- Contents of the uniform instanceGeomInfoOffset array after the memcpy in
TryBuildTLAS, as a flat int32 array: the copy covers the first
instanceCount * 4 flat indices of the local array, in which only the indices
written by the assembly loop are defined and the rest keep the uninitialized
stack contents of the local array (garbage); indices beyond the copied range
keep the previous uniform contents (old). -/
def uniformAfterMemcpy (writes : List (Nat × Nat)) (count : Nat) (garbage old : Nat → Nat) :
    Nat → Nat :=
  fun j => if j < count * 4 then (lookupWrite writes j).getD (garbage j) else old j

/-- Shader-side lookup of VertexData.inl: getGeometryIndex reads component
instanceID % 4 of ivec4 number instanceID / 4 of the uniform array, which is
flat int32 index (instanceID / 4) * 4 + instanceID % 4, and adds the local
geometry index. -/
def getGeometryIndex (buf : Nat → Nat) (instanceID localGeometryIndex : Nat) : Nat :=
  buf (instanceID / 4 * 4 + instanceID % 4) + localGeometryIndex

/-- Modelled from the spec: the geometry-metadata index recorded at submission
time for the geometry with the given local index inside a filter group is the
group base offset plus the local index; the collector source that writes the
metadata records is not among the provided sources. -/
def metadataIndexAtSubmission (f : Nat) (localIndex : Nat) : Nat :=
  offsetTableValue f + localIndex

/-- The fields of a ShGeometryInstance read by the triangle-fetch functions of
VertexData.inl.  Model matrices are abstracted by the type parameter M. -/
structure ShGeometryInstanceSh (M : Type) where
  model : M
  prevModel : M
  flags : Nat
  baseVertexIndex : Nat
  baseIndexIndex : Nat
  prevBaseVertexIndex : Nat
  prevBaseIndexIndex : Nat

/-- The buffers and the floating-point operations the triangle-fetch functions
read, abstracted: index buffers as functions on indices, vertex buffers as
functions into an abstract vector type V, matrix application and barycentric
combination as uninterpreted operations. -/
structure VertexDataEnv (V M : Type) where
  staticIndices : Nat → Nat
  dynamicIndices : Nat → Nat
  prevDynamicIndices : Nat → Nat
  staticPositions : Nat → V
  staticNormals : Nat → V
  dynamicPositions : Nat → V
  dynamicNormals : Nat → V
  prevDynamicPositions : Nat → V
  applyModel : M → V → V
  applyModel3 : M → V → V
  combineBary : V → V → V → V

/-- getVertIndicesStatic of VertexData.inl. -/
def getVertIndicesStatic (env : VertexDataEnv V M)
    (baseVertexIndex baseIndexIndex primitiveId : Nat) : Nat × Nat × Nat :=
  if baseIndexIndex ≠ UINT32_MAX then
    (baseVertexIndex + env.staticIndices (baseIndexIndex + primitiveId * 3 + 0),
     baseVertexIndex + env.staticIndices (baseIndexIndex + primitiveId * 3 + 1),
     baseVertexIndex + env.staticIndices (baseIndexIndex + primitiveId * 3 + 2))
  else
    (baseVertexIndex + primitiveId * 3 + 0,
     baseVertexIndex + primitiveId * 3 + 1,
     baseVertexIndex + primitiveId * 3 + 2)

/-- getVertIndicesDynamic of VertexData.inl. -/
def getVertIndicesDynamic (env : VertexDataEnv V M)
    (baseVertexIndex baseIndexIndex primitiveId : Nat) : Nat × Nat × Nat :=
  if baseIndexIndex ≠ UINT32_MAX then
    (baseVertexIndex + env.dynamicIndices (baseIndexIndex + primitiveId * 3 + 0),
     baseVertexIndex + env.dynamicIndices (baseIndexIndex + primitiveId * 3 + 1),
     baseVertexIndex + env.dynamicIndices (baseIndexIndex + primitiveId * 3 + 2))
  else
    (baseVertexIndex + primitiveId * 3 + 0,
     baseVertexIndex + primitiveId * 3 + 1,
     baseVertexIndex + primitiveId * 3 + 2)

/-- getPrevVertIndicesDynamic of VertexData.inl. -/
def getPrevVertIndicesDynamic (env : VertexDataEnv V M)
    (prevBaseVertexIndex prevBaseIndexIndex primitiveId : Nat) : Nat × Nat × Nat :=
  if prevBaseIndexIndex ≠ UINT32_MAX then
    (prevBaseVertexIndex + env.prevDynamicIndices (prevBaseIndexIndex + primitiveId * 3 + 0),
     prevBaseVertexIndex + env.prevDynamicIndices (prevBaseIndexIndex + primitiveId * 3 + 1),
     prevBaseVertexIndex + env.prevDynamicIndices (prevBaseIndexIndex + primitiveId * 3 + 2))
  else
    (prevBaseVertexIndex + primitiveId * 3 + 0,
     prevBaseVertexIndex + primitiveId * 3 + 1,
     prevBaseVertexIndex + primitiveId * 3 + 2)

/-- The position, previous-position and normal triples of a fetched triangle.
The material, texture-coordinate and tangent fields of ShTriangle are omitted:
the verified properties do not mention them. -/
structure ShTrianglePos (V : Type) where
  positions : V × V × V
  prevPositions : V × V × V
  normals : V × V × V

/-- getTriangle of VertexData.inl, restricted to positions, previous positions
and normals.  The dynamic path uses previous-frame vertex data under the
previous model matrix exactly when prevBaseVertexIndex is not the sentinel,
falling back to the current world-space positions; the static path applies the
previous model matrix to the current local positions exactly when the geometry
is movable and prevBaseVertexIndex is not the sentinel, likewise falling back.
The final world-space normal transform of the source is applied in both paths. -/
def getTriangle (env : VertexDataEnv V M) (inst : ShGeometryInstanceSh M)
    (instanceCustomIndex primitiveId : Nat) : ShTrianglePos V :=
  if instanceCustomIndex &&& INSTANCE_CUSTOM_INDEX_FLAG_DYNAMIC == INSTANCE_CUSTOM_INDEX_FLAG_DYNAMIC then
    let vi := getVertIndicesDynamic env inst.baseVertexIndex inst.baseIndexIndex primitiveId
    let p0 := env.applyModel inst.model (env.dynamicPositions vi.1)
    let p1 := env.applyModel inst.model (env.dynamicPositions vi.2.1)
    let p2 := env.applyModel inst.model (env.dynamicPositions vi.2.2)
    let prevP :=
      if inst.prevBaseVertexIndex ≠ UINT32_MAX then
        let pvi := getPrevVertIndicesDynamic env inst.prevBaseVertexIndex inst.prevBaseIndexIndex primitiveId
        (env.applyModel inst.prevModel (env.prevDynamicPositions pvi.1),
         env.applyModel inst.prevModel (env.prevDynamicPositions pvi.2.1),
         env.applyModel inst.prevModel (env.prevDynamicPositions pvi.2.2))
      else (p0, p1, p2)
    { positions := (p0, p1, p2)
      prevPositions := prevP
      normals := (env.applyModel3 inst.model (env.dynamicNormals vi.1),
                  env.applyModel3 inst.model (env.dynamicNormals vi.2.1),
                  env.applyModel3 inst.model (env.dynamicNormals vi.2.2)) }
  else
    let vi := getVertIndicesStatic env inst.baseVertexIndex inst.baseIndexIndex primitiveId
    let l0 := env.staticPositions vi.1
    let l1 := env.staticPositions vi.2.1
    let l2 := env.staticPositions vi.2.2
    let p0 := env.applyModel inst.model l0
    let p1 := env.applyModel inst.model l1
    let p2 := env.applyModel inst.model l2
    let prevP :=
      if inst.flags &&& GEOM_INST_FLAG_IS_MOVABLE ≠ 0 ∧ inst.prevBaseVertexIndex ≠ UINT32_MAX then
        (env.applyModel inst.prevModel l0,
         env.applyModel inst.prevModel l1,
         env.applyModel inst.prevModel l2)
      else (p0, p1, p2)
    { positions := (p0, p1, p2)
      prevPositions := prevP
      normals := (env.applyModel3 inst.model (env.staticNormals vi.1),
                  env.applyModel3 inst.model (env.staticNormals vi.2.1),
                  env.applyModel3 inst.model (env.staticNormals vi.2.2)) }

/-- getTriangle_PositionAndNormal of VertexData.inl: the barycentric surface
position and normal with their previous-frame counterparts, with the same
fallback structure as getTriangle (the source notes that, lacking a previous
normal buffer, the dynamic previous normal applies the previous model matrix
to the current local normal). -/
def getTrianglePositionAndNormal (env : VertexDataEnv V M) (inst : ShGeometryInstanceSh M)
    (instanceCustomIndex primitiveId : Nat) : (V × V) × (V × V) :=
  if instanceCustomIndex &&& INSTANCE_CUSTOM_INDEX_FLAG_DYNAMIC == INSTANCE_CUSTOM_INDEX_FLAG_DYNAMIC then
    let vi := getVertIndicesDynamic env inst.baseVertexIndex inst.baseIndexIndex primitiveId
    let localNormal := env.combineBary (env.dynamicNormals vi.1) (env.dynamicNormals vi.2.1)
        (env.dynamicNormals vi.2.2)
    let position := env.applyModel inst.model (env.combineBary (env.dynamicPositions vi.1)
        (env.dynamicPositions vi.2.1) (env.dynamicPositions vi.2.2))
    let normal := env.applyModel3 inst.model localNormal
    if inst.prevBaseVertexIndex ≠ UINT32_MAX then
      let pvi := getPrevVertIndicesDynamic env inst.prevBaseVertexIndex inst.prevBaseIndexIndex primitiveId
      let positionPrev := env.applyModel inst.prevModel (env.combineBary
          (env.prevDynamicPositions pvi.1) (env.prevDynamicPositions pvi.2.1)
          (env.prevDynamicPositions pvi.2.2))
      ((position, positionPrev), (normal, env.applyModel3 inst.prevModel localNormal))
    else
      ((position, position), (normal, normal))
  else
    let vi := getVertIndicesStatic env inst.baseVertexIndex inst.baseIndexIndex primitiveId
    let localPosition := env.combineBary (env.staticPositions vi.1) (env.staticPositions vi.2.1)
        (env.staticPositions vi.2.2)
    let localNormal := env.combineBary (env.staticNormals vi.1) (env.staticNormals vi.2.1)
        (env.staticNormals vi.2.2)
    let position := env.applyModel inst.model localPosition
    let normal := env.applyModel3 inst.model localNormal
    if inst.flags &&& GEOM_INST_FLAG_IS_MOVABLE ≠ 0 ∧ inst.prevBaseVertexIndex ≠ UINT32_MAX then
      ((position, env.applyModel inst.prevModel localPosition),
       (normal, env.applyModel3 inst.prevModel localNormal))
    else
      ((position, position), (normal, normal))

/-- getCurrentGeometryIndexByPrev of VertexData.inl: resolve the previous-frame
global geometry index through the previous offset table, look it up in the
prev-to-cur map buffer and report whether the result is not the no-match
sentinel; the looked-up value is always returned alongside. -/
def getCurrentGeometryIndexByPrev (uniformPrevTable : Nat → Nat) (geomIndexPrevToCur : Nat → Nat)
    (prevInstanceID prevLocalGeometryIndex : Nat) : Bool × Nat :=
  let prevFrameGeomIndex :=
    uniformPrevTable (prevInstanceID / 4 * 4 + prevInstanceID % 4) + prevLocalGeometryIndex
  let cur := geomIndexPrevToCur prevFrameGeomIndex
  (cur != UINT32_MAX, cur)

/-!
Helper lemmas about the TLAS instance-assembly loop.
-/

theorem assembleTLASFrom_cons_invalid (n : Nat) (a : AccelStruct) (rest : List AccelStruct)
    (ha : a.handleValid = false) :
    assembleTLASFrom n (a :: rest) = assembleTLASFrom n rest := by
  simp [assembleTLASFrom, setupTLASInstance, ha]

theorem assembleTLASFrom_cons_valid (n : Nat) (a : AccelStruct) (rest : List AccelStruct)
    (ha : a.handleValid = true) :
    assembleTLASFrom n (a :: rest) =
      ((n, tlasInstanceForFilter a.filter) :: (assembleTLASFrom (n + 1) rest).1,
       (n * 4, offsetTableValue a.filter) :: (assembleTLASFrom (n + 1) rest).2.1,
       (assembleTLASFrom (n + 1) rest).2.2) := by
  simp [assembleTLASFrom, setupTLASInstance, ha]

theorem assembleTLASFrom_count_ge (l : List AccelStruct) :
    ∀ n, n ≤ (assembleTLASFrom n l).2.2 := by
  induction l with
  | nil => intro n; simp [assembleTLASFrom]
  | cons a rest ih =>
    intro n
    cases ha : a.handleValid
    · rw [assembleTLASFrom_cons_invalid n a rest ha]
      exact ih n
    · rw [assembleTLASFrom_cons_valid n a rest ha]
      have h := ih (n + 1)
      simp only
      omega

theorem assembleTLASFrom_count_le (l : List AccelStruct) :
    ∀ n, (assembleTLASFrom n l).2.2 ≤ n + l.length := by
  induction l with
  | nil => intro n; simp [assembleTLASFrom]
  | cons a rest ih =>
    intro n
    cases ha : a.handleValid
    · rw [assembleTLASFrom_cons_invalid n a rest ha]
      have h := ih n
      simp only [List.length_cons]
      omega
    · rw [assembleTLASFrom_cons_valid n a rest ha]
      have h := ih (n + 1)
      simp only [List.length_cons]
      omega

theorem assembleTLASFrom_inst_idx (l : List AccelStruct) :
    ∀ n p, p ∈ (assembleTLASFrom n l).1 → n ≤ p.1 ∧ p.1 < (assembleTLASFrom n l).2.2 := by
  induction l with
  | nil => intro n p hp; simp [assembleTLASFrom] at hp
  | cons a rest ih =>
    intro n p hp
    cases ha : a.handleValid
    · rw [assembleTLASFrom_cons_invalid n a rest ha] at hp ⊢
      exact ih n p hp
    · rw [assembleTLASFrom_cons_valid n a rest ha] at hp ⊢
      simp only [List.mem_cons] at hp
      rcases hp with hp | hp
      · subst hp
        have := assembleTLASFrom_count_ge rest (n + 1)
        simp only
        omega
      · have h := ih (n + 1) p hp
        simp only
        omega

theorem assembleTLASFrom_off_idx (l : List AccelStruct) :
    ∀ n p, p ∈ (assembleTLASFrom n l).2.1 →
      ∃ k, p.1 = k * 4 ∧ n ≤ k ∧ k < (assembleTLASFrom n l).2.2 := by
  induction l with
  | nil => intro n p hp; simp [assembleTLASFrom] at hp
  | cons a rest ih =>
    intro n p hp
    cases ha : a.handleValid
    · rw [assembleTLASFrom_cons_invalid n a rest ha] at hp ⊢
      exact ih n p hp
    · rw [assembleTLASFrom_cons_valid n a rest ha] at hp ⊢
      simp only [List.mem_cons] at hp
      rcases hp with hp | hp
      · subst hp
        refine ⟨n, rfl, le_refl n, ?_⟩
        have := assembleTLASFrom_count_ge rest (n + 1)
        simp only
        omega
      · obtain ⟨k, hk1, hk2, hk3⟩ := ih (n + 1) p hp
        exact ⟨k, hk1, by omega, hk3⟩

theorem assembleTLASFrom_off_vals (l : List AccelStruct) :
    ∀ n, (assembleTLASFrom n l).2.1.map Prod.snd =
        (l.filter (fun a => a.handleValid)).map (fun a => offsetTableValue a.filter) ∧
      (assembleTLASFrom n l).2.2 = n + (l.filter (fun a => a.handleValid)).length := by
  induction l with
  | nil => intro n; simp [assembleTLASFrom]
  | cons a rest ih =>
    intro n
    cases ha : a.handleValid
    · obtain ⟨h1, h2⟩ := ih n
      rw [assembleTLASFrom_cons_invalid n a rest ha]
      simp only [List.filter_cons, ha]
      exact ⟨h1, by simpa using h2⟩
    · obtain ⟨h1, h2⟩ := ih (n + 1)
      rw [assembleTLASFrom_cons_valid n a rest ha]
      simp only [List.filter_cons, ha, if_true, List.map_cons, List.length_cons]
      constructor
      · simpa using h1
      · omega

/-!
Claim theorems.
-/

/-- C9: the top-level instance scratch list declared locally in TryBuildTLAS
holds exactly 32 entries, strictly smaller than the declared maximum instance
count MAX_TOP_LEVEL_INSTANCE_COUNT = 45, which is the bound used by the
assertion, the instance-buffer capacity, and the local offset-table size. -/
theorem tlas_scratch_smaller_than_declared_max :
    instancesScratchCount = 32 ∧
    MAX_TOP_LEVEL_INSTANCE_COUNT = 45 ∧
    instancesScratchCount < MAX_TOP_LEVEL_INSTANCE_COUNT ∧
    tlasInstanceCountAssertBound = MAX_TOP_LEVEL_INSTANCE_COUNT ∧
    instanceBufferCapacity = MAX_TOP_LEVEL_INSTANCE_COUNT ∧
    instanceGeomInfoOffsetLen = MAX_TOP_LEVEL_INSTANCE_COUNT * 4 := by
  decide

/-- A list of 46 bottom-level structures with valid handles, exceeding both the
scratch size and the declared maximum instance count. -/
def overfullBlasList : List AccelStruct :=
  List.replicate 46
    { filter := CF_STATIC_NON_MOVABLE ||| PT_OPAQUE_BIT, handleValid := true,
      bufInitted := true, bufSize := 1, bufGen := 1 }

/-- C1 counterexample: the assembly loops of TryBuildTLAS never stop at a bound
and report no capacity error: on a list of 46 live bottom-level structures all
46 instances are emitted (exceeding the fixed maximum of 45), an instance
write occurs at index 32, past the end of the 32-entry scratch array, and an
offset write occurs at flat index 180, past the end of the 180-entry local
offset table. -/
theorem tryBuildTLAS_no_capacity_check_counterexample :
    (assembleTLAS overfullBlasList).2.2 = 46 ∧
    MAX_TOP_LEVEL_INSTANCE_COUNT < (assembleTLAS overfullBlasList).2.2 ∧
    instancesScratchCount ∈ (assembleTLAS overfullBlasList).1.map Prod.fst ∧
    instanceGeomInfoOffsetLen ∈ (assembleTLAS overfullBlasList).2.1.map Prod.fst := by
  decide

/-- C1 (amended): the assembly loops check no bound and report no capacity
error (the only guard is the debug assertion after each write), but for
bottom-level structure lists no longer than the lists the constructor builds
(8 static and 4 per-frame dynamic), the assembled instance count is at most 12,
so it never exceeds the declared maximum instance count, every instance write
stays below the 32-entry scratch array and every offset write stays inside the
local offset table. -/
theorem tryBuildTLAS_writes_in_bounds (statics dyns : List AccelStruct)
    (hs : statics.length ≤ 8) (hd : dyns.length ≤ 4) :
    (assembleTLAS (statics ++ dyns)).2.2 ≤ 12 ∧
    (assembleTLAS (statics ++ dyns)).2.2 ≤ MAX_TOP_LEVEL_INSTANCE_COUNT ∧
    (∀ p ∈ (assembleTLAS (statics ++ dyns)).1, p.1 < instancesScratchCount) ∧
    (∀ p ∈ (assembleTLAS (statics ++ dyns)).2.1, p.1 < instanceGeomInfoOffsetLen) := by
  have hlen : (statics ++ dyns).length ≤ 12 := by
    rw [List.length_append]; omega
  have hcount := assembleTLASFrom_count_le (statics ++ dyns) 0
  have h12 : (assembleTLAS (statics ++ dyns)).2.2 ≤ 12 := by
    unfold assembleTLAS; omega
  have h45 : MAX_TOP_LEVEL_INSTANCE_COUNT = 45 := rfl
  have h32 : instancesScratchCount = 32 := rfl
  have h180 : instanceGeomInfoOffsetLen = 180 := rfl
  refine ⟨h12, by omega, ?_, ?_⟩
  · intro p hp
    have hi := assembleTLASFrom_inst_idx (statics ++ dyns) 0 p hp
    unfold assembleTLAS at h12
    omega
  · intro p hp
    obtain ⟨k, hk1, _, hk3⟩ := assembleTLASFrom_off_idx (statics ++ dyns) 0 p hp
    unfold assembleTLAS at h12
    omega

/-- C1 amended witness at the constructor state: its lists have 8 and 4
entries, and the assembly over them stays within every bound. -/
theorem tryBuildTLAS_writes_in_bounds_witness :
    initState.staticBlas.length ≤ 8 ∧ (initState.dynBlas 0).length ≤ 4 ∧
    ((assembleTLAS (initState.staticBlas ++ initState.dynBlas 0)).2.2 ≤ 12 ∧
     (assembleTLAS (initState.staticBlas ++ initState.dynBlas 0)).2.2 ≤ MAX_TOP_LEVEL_INSTANCE_COUNT ∧
     (∀ p ∈ (assembleTLAS (initState.staticBlas ++ initState.dynBlas 0)).1,
        p.1 < instancesScratchCount) ∧
     (∀ p ∈ (assembleTLAS (initState.staticBlas ++ initState.dynBlas 0)).2.1,
        p.1 < instanceGeomInfoOffsetLen)) :=
  ⟨by decide, by decide,
   tryBuildTLAS_writes_in_bounds initState.staticBlas (initState.dynBlas 0) (by decide) (by decide)⟩

/-- Five live static bottom-level structures carrying the first five filter
groups of the constructor order. -/
def fiveLiveBlasList : List AccelStruct :=
  (staticBlasFilters.take 5).map
    (fun f => { filter := f, handleValid := true, bufInitted := true, bufSize := 1, bufGen := 1 })

/-- The uniform offset-table contents after TryBuildTLAS assembles the five
instances and copies instanceCount * 4 int32 values, with the uninitialized
local-array entries and the previous uniform contents both taken as 0. -/
def fiveLiveUniform : Nat → Nat :=
  uniformAfterMemcpy (assembleTLAS fiveLiveBlasList).2.1 (assembleTLAS fiveLiveBlasList).2.2
    (fun _ => 0) (fun _ => 0)

/-- C2 (code-bug evaluation): the CPU side of TryBuildTLAS writes the base
offset of instance slot i at flat int32 index 4 * i (vec4-aligned stride, per
its std140 comment), while the shader-side getGeometryIndex reads flat index
(i / 4) * 4 + i % 4 = i.  With five live instances, slot 4 owns base offset
4 * 4096 = 16384, but the shader lookup at instanceID 4 returns flat index 4,
which holds slot 1's base offset 4096: the lookup does not return the
geometry-metadata index recorded for slot 4 at submission time. -/
theorem getGeometryIndex_mismatch_at_slot_four :
    (assembleTLAS fiveLiveBlasList).2.2 = 5 ∧
    (assembleTLAS fiveLiveBlasList).2.1 =
      [(0, 0), (4, 4096), (8, 8192), (12, 12288), (16, 16384)] ∧
    getGeometryIndex fiveLiveUniform 4 0 = 4096 ∧
    metadataIndexAtSubmission (CF_STATIC_MOVABLE ||| PT_OPAQUE_BIT) 0 = 16384 ∧
    getGeometryIndex fiveLiveUniform 4 0 ≠
      metadataIndexAtSubmission (CF_STATIC_MOVABLE ||| PT_OPAQUE_BIT) 0 ∧
    getGeometryIndex fiveLiveUniform 4 0 =
      metadataIndexAtSubmission (CF_STATIC_NON_MOVABLE ||| PT_ALPHA_TESTED) 0 := by
  decide

/-- A dynamic upload routed to the dynamic opaque filter group. -/
def dynOpaqueUpload : RgGeometryUploadInfo :=
  { geomType := RgGeometryType.DYNAMIC, passThroughBit := PT_OPAQUE_BIT,
    transform := 0, uploadId := 100 }

/-- Geometry-count build-size function used for the concrete traces. -/
def unitGeomSize (g : List GeomRec) : Nat := g.length

/-- The state after: begin dynamic frame 0, add one dynamic opaque geometry,
submit dynamic frame 0 (builds the dynamic opaque BLAS), then begin dynamic
frame 0 again (collector reset) and submit dynamic frame 0 with no geometry
(the submit skips without destroying the frame BLAS handles). -/
def staleDynState : ASState :=
  submitDynamicGeometry unitGeomSize 0
    (beginDynamicGeometry 0
      (submitDynamicGeometry unitGeomSize 0
        (addDynamicGeometry (beginDynamicGeometry 0 initState) dynOpaqueUpload 0).1))

/-- C3 counterexample: in the reachable state staleDynState, the dynamic
opaque bottom-level structure of frame 0 still has a valid handle although its
filter group holds no geometry in the collector used for that frame, and
TryBuildTLAS assembles exactly one top-level instance from it. -/
theorem stale_dynamic_instance_counterexample :
    ((staleDynState.dynBlas 0).filter (fun a => a.handleValid)).map (fun a => a.filter) =
      [CF_DYNAMIC ||| PT_OPAQUE_BIT] ∧
    (staleDynState.colDyn 0).getASGeometries (CF_DYNAMIC ||| PT_OPAQUE_BIT) = [] ∧
    (tryBuildTLAS staleDynState 0).1.2.2 = 1 ∧
    (tryBuildTLAS staleDynState 0).2 = true := by
  decide

/-- C3 (amended): TLAS assembly emits exactly one instance per bottom-level
structure with a valid handle, in order (so an instance exists iff its handle
is valid), and SetupBLAS only ever creates a handle for a filter group that is
non-empty in the collector at setup time; but a handle may outlive the data
that built it, so the group need not be non-empty in the collector at assembly
time (see the stale-dynamic counterexample). -/
theorem tlas_instances_iff_valid_handles :
    (∀ l : List AccelStruct,
      (assembleTLAS l).2.1.map Prod.snd =
        (l.filter (fun a => a.handleValid)).map (fun a => offsetTableValue a.filter) ∧
      (assembleTLAS l).2.2 = (l.filter (fun a => a.handleValid)).length) ∧
    (∀ (bsize : List GeomRec → Nat) (col : Collector) (a : AccelStruct),
      ((setupBLAS bsize col a).1).handleValid = true →
        a.handleValid = true ∨ col.getASGeometries a.filter ≠ []) := by
  constructor
  · intro l
    have h := assembleTLASFrom_off_vals l 0
    simpa [assembleTLAS] using h
  · intro bsize col a h
    by_cases hg : (col.getASGeometries a.filter).isEmpty
    · left
      unfold setupBLAS at h
      simpa [hg] using h
    · right
      intro hc
      rw [hc] at hg
      simp at hg

/-- C3 amended witness: one valid structure yields one instance, and the
handle SetupBLAS creates for an uninitialized structure comes from a non-empty
group. -/
theorem tlas_instances_iff_valid_handles_witness :
    ((assembleTLAS [{ filter := 9, handleValid := true }]).2.2 =
      (([{ filter := 9, handleValid := true }] : List AccelStruct).filter
        (fun a => a.handleValid)).length) ∧
    (({ filter := 9 } : AccelStruct).handleValid = true ∨
      (Collector.mk [{ filter := 9, transform := 0, uploadId := 0 }]).getASGeometries 9 ≠ []) :=
  ⟨(tlas_instances_iff_valid_handles.1 [{ filter := 9, handleValid := true }]).2,
   tlas_instances_iff_valid_handles.2 unitGeomSize
     (Collector.mk [{ filter := 9, transform := 0, uploadId := 0 }])
     { filter := 9 } (by decide)⟩

theorem destroyIfStaticFilter_idem (a : AccelStruct) :
    destroyIfStaticFilter (destroyIfStaticFilter a) = destroyIfStaticFilter a := by
  unfold destroyIfStaticFilter destroyAS
  cases h : (a.filter &&& staticFlagsMask != 0) <;> simp [h]

theorem map_destroyIfStaticFilter_idem (l : List AccelStruct) :
    (l.map destroyIfStaticFilter).map destroyIfStaticFilter = l.map destroyIfStaticFilter := by
  induction l with
  | nil => rfl
  | cons a rest ih => simp [destroyIfStaticFilter_idem, ih]

/-- C4: a second SubmitStaticGeometry call with no static geometry data
present takes the skip path: it changes nothing at all relative to the state
after the first call; in particular it enqueues and flushes no new builds and
leaves every static bottom-level structure record (handle, buffer) unchanged. -/
theorem submitStaticGeometry_second_call_skips (bsize : List GeomRec → Nat) (s : ASState)
    (h : s.colStatic.areGeometriesEmpty staticFlagsMask = true) :
    submitStaticGeometry bsize (submitStaticGeometry bsize s) = submitStaticGeometry bsize s := by
  have h1 : submitStaticGeometry bsize s =
      { s with staticBlas := s.staticBlas.map destroyIfStaticFilter } := by
    unfold submitStaticGeometry
    simp [h]
  rw [h1]
  unfold submitStaticGeometry
  simp only [h, map_destroyIfStaticFilter_idem, if_true]

/-- C4 witness at the constructor state, whose static collector is empty. -/
theorem submitStaticGeometry_second_call_skips_witness :
    initState.colStatic.areGeometriesEmpty staticFlagsMask = true ∧
    submitStaticGeometry (fun g => g.length) (submitStaticGeometry (fun g => g.length) initState) =
      submitStaticGeometry (fun g => g.length) initState :=
  ⟨by decide,
   submitStaticGeometry_second_call_skips (fun g => g.length) initState (by decide)⟩

theorem updateTransformAt_all_mask (rs : List GeomRec) :
    ∀ idx t mask, ((updateTransformAt rs idx t).all (fun r => r.filter &&& mask == 0)) =
      (rs.all (fun r => r.filter &&& mask == 0)) := by
  induction rs with
  | nil => intro idx t mask; rfl
  | cons r rest ih =>
    intro idx t mask
    cases idx with
    | zero => simp [updateTransformAt]
    | succ n => simp [updateTransformAt, ih]

theorem areGeometriesEmpty_updateTransform (c : Collector) (idx t mask : Nat) :
    (c.updateTransform idx t).areGeometriesEmpty mask = c.areGeometriesEmpty mask := by
  unfold Collector.areGeometriesEmpty Collector.updateTransform
  exact updateTransformAt_all_mask c.recs idx t mask

theorem updateTransformAt_getElem_ne (rs : List GeomRec) :
    ∀ idx t j, j ≠ idx → (updateTransformAt rs idx t)[j]? = rs[j]? := by
  induction rs with
  | nil => intro idx t j _; simp [updateTransformAt]
  | cons r rest ih =>
    intro idx t j hj
    cases idx with
    | zero =>
      cases j with
      | zero => exact absurd rfl hj
      | succ m => simp [updateTransformAt]
    | succ n =>
      cases j with
      | zero => simp [updateTransformAt]
      | succ m =>
        simp only [updateTransformAt, List.getElem?_cons_succ]
        exact ih n t m (by omega)

theorem updateTransformAt_getElem_eq (rs : List GeomRec) :
    ∀ idx t, idx < rs.length →
      ∃ r0, rs[idx]? = some r0 ∧
        (updateTransformAt rs idx t)[idx]? = some { r0 with transform := t } := by
  induction rs with
  | nil => intro idx t h; simp at h
  | cons r rest ih =>
    intro idx t h
    cases idx with
    | zero => exact ⟨r, by simp, by simp [updateTransformAt]⟩
    | succ n =>
      obtain ⟨r0, h1, h2⟩ := ih n t (by simpa using h)
      exact ⟨r0, by simpa using h1, by simpa [updateTransformAt] using h2⟩

theorem updateBLASList_reqs (bsize : List GeomRec → Nat) (col : Collector) :
    ∀ l b, b ∈ updateBLASList bsize col l →
      b.update = true ∧ b.filter &&& CF_STATIC_MOVABLE ≠ 0 := by
  intro l
  induction l with
  | nil => intro b hb; simp [updateBLASList] at hb
  | cons a rest ih =>
    intro b hb
    by_cases hm : (a.filter &&& CF_STATIC_MOVABLE != 0)
    · simp only [updateBLASList, hm, if_true, List.mem_append] at hb
      rcases hb with hb | hb
      · unfold updateBLAS at hb
        by_cases hg : (col.getASGeometries a.filter).isEmpty
        · simp [hg] at hb
        · simp only [hg, if_false, Bool.false_eq_true, Option.toList_some, List.mem_singleton] at hb
          subst hb
          exact ⟨rfl, by simpa using hm⟩
      · exact ih b hb
    · simp only [updateBLASList, hm, if_false] at hb
      exact ih b hb

/-- C5: invoking only UpdateStaticMovableTransform followed by
ResubmitStaticMovable leaves every bottom-level structure record untouched
(same handle, same buffer: no destroy, no reallocation, no recreation), every
build it flushes is an in-place update-mode request for a movable filter
group, the targeted collector record gets exactly its transform replaced while
every other record is unchanged, and if no movable geometry exists the
resubmit is skipped entirely. -/
theorem movableTransformUpdate_effect (bsize : List GeomRec → Nat) (s : ASState) (idx t : Nat) :
    (resubmitStaticMovable bsize (updateStaticMovableTransform idx t s)).staticBlas =
      s.staticBlas ∧
    (resubmitStaticMovable bsize (updateStaticMovableTransform idx t s)).dynamicBlas0 =
      s.dynamicBlas0 ∧
    (resubmitStaticMovable bsize (updateStaticMovableTransform idx t s)).dynamicBlas1 =
      s.dynamicBlas1 ∧
    (∀ b ∈ (resubmitStaticMovable bsize (updateStaticMovableTransform idx t s)).buildLog.drop
        s.buildLog.length, b.update = true ∧ b.filter &&& CF_STATIC_MOVABLE ≠ 0) ∧
    (s.colStatic.areGeometriesEmpty CF_STATIC_MOVABLE = true →
      resubmitStaticMovable bsize (updateStaticMovableTransform idx t s) =
        updateStaticMovableTransform idx t s) ∧
    (∀ j, j ≠ idx →
      ((updateStaticMovableTransform idx t s).colStatic.recs)[j]? = (s.colStatic.recs)[j]?) ∧
    (idx < s.colStatic.recs.length →
      ∃ r0, (s.colStatic.recs)[idx]? = some r0 ∧
        ((updateStaticMovableTransform idx t s).colStatic.recs)[idx]? =
          some { r0 with transform := t }) := by
  have hemp : (updateStaticMovableTransform idx t s).colStatic.areGeometriesEmpty
      CF_STATIC_MOVABLE = s.colStatic.areGeometriesEmpty CF_STATIC_MOVABLE := by
    unfold updateStaticMovableTransform
    exact areGeometriesEmpty_updateTransform s.colStatic idx t CF_STATIC_MOVABLE
  by_cases he : s.colStatic.areGeometriesEmpty CF_STATIC_MOVABLE = true
  · have hr : resubmitStaticMovable bsize (updateStaticMovableTransform idx t s) =
        updateStaticMovableTransform idx t s := by
      unfold resubmitStaticMovable
      rw [hemp]
      simp [he]
    refine ⟨by rw [hr]; rfl, by rw [hr]; rfl, by rw [hr]; rfl, ?_, fun _ => hr, ?_, ?_⟩
    · intro b hb
      rw [hr] at hb
      have : (updateStaticMovableTransform idx t s).buildLog = s.buildLog := rfl
      rw [this, List.drop_length] at hb
      simp at hb
    · intro j hj
      exact updateTransformAt_getElem_ne s.colStatic.recs idx t j hj
    · intro hlt
      exact updateTransformAt_getElem_eq s.colStatic.recs idx t hlt
  · have he' : (updateStaticMovableTransform idx t s).colStatic.areGeometriesEmpty
        CF_STATIC_MOVABLE = false := by
      rw [hemp]
      exact Bool.not_eq_true _ |>.mp he
    have hr : resubmitStaticMovable bsize (updateStaticMovableTransform idx t s) =
        { updateStaticMovableTransform idx t s with
          buildLog := s.buildLog ++ updateBLASList bsize
            ((updateStaticMovableTransform idx t s).colStatic) s.staticBlas } := by
      unfold resubmitStaticMovable
      rw [he']
      rfl
    refine ⟨by rw [hr]; rfl, by rw [hr]; rfl, by rw [hr]; rfl, ?_, fun hc => absurd hc he, ?_, ?_⟩
    · intro b hb
      rw [hr] at hb
      simp only [List.drop_left] at hb
      exact updateBLASList_reqs bsize _ s.staticBlas b hb
    · intro j hj
      exact updateTransformAt_getElem_ne s.colStatic.recs idx t j hj
    · intro hlt
      exact updateTransformAt_getElem_eq s.colStatic.recs idx t hlt

/-- C5 witness: a concrete state with one movable record and one built movable
structure; the combined operation preserves every structure record, appends
only movable update-mode builds, and rewrites exactly the one transform. -/
theorem movableTransformUpdate_effect_witness :
    (resubmitStaticMovable (fun g => g.length + 1) (updateStaticMovableTransform 0 7
      { staticBlas := [{ filter := 10, handleValid := true, bufInitted := true,
                         bufSize := 3, bufGen := 1 }],
        dynamicBlas0 := [], dynamicBlas1 := [],
        colStatic := { recs := [{ filter := 10, transform := 0, uploadId := 5 }] },
        colDynamic0 := { recs := [] }, colDynamic1 := { recs := [] },
        buildLog := [] })).staticBlas =
      [{ filter := 10, handleValid := true, bufInitted := true, bufSize := 3, bufGen := 1 }] ∧
    (0 < ([{ filter := 10, transform := 0, uploadId := 5 }] : List GeomRec).length →
      ∃ r0, ([{ filter := 10, transform := 0, uploadId := 5 }] : List GeomRec)[0]? = some r0 ∧
        ((updateStaticMovableTransform 0 7
          { staticBlas := [{ filter := 10, handleValid := true, bufInitted := true,
                             bufSize := 3, bufGen := 1 }],
            dynamicBlas0 := [], dynamicBlas1 := [],
            colStatic := { recs := [{ filter := 10, transform := 0, uploadId := 5 }] },
            colDynamic0 := { recs := [] }, colDynamic1 := { recs := [] },
            buildLog := [] }).colStatic.recs)[0]? = some { r0 with transform := 7 }) :=
  ⟨(movableTransformUpdate_effect (fun g => g.length + 1)
      { staticBlas := [{ filter := 10, handleValid := true, bufInitted := true,
                         bufSize := 3, bufGen := 1 }],
        dynamicBlas0 := [], dynamicBlas1 := [],
        colStatic := { recs := [{ filter := 10, transform := 0, uploadId := 5 }] },
        colDynamic0 := { recs := [] }, colDynamic1 := { recs := [] },
        buildLog := [] } 0 7).1,
   (movableTransformUpdate_effect (fun g => g.length + 1)
      { staticBlas := [{ filter := 10, handleValid := true, bufInitted := true,
                         bufSize := 3, bufGen := 1 }],
        dynamicBlas0 := [], dynamicBlas1 := [],
        colStatic := { recs := [{ filter := 10, transform := 0, uploadId := 5 }] },
        colDynamic0 := { recs := [] }, colDynamic1 := { recs := [] },
        buildLog := [] } 0 7).2.2.2.2.2.2⟩

/-- C6: after SetupBLAS on non-empty geometry the backing buffer is
initialized with size at least the required build size and the build request
is enqueued; when the existing buffer was uninitialized or too small, the
structure was destroyed and a fresh buffer of exactly the required size was
created (new allocation generation, valid handle) before the build was
enqueued; otherwise the structure record is untouched. -/
theorem setupBLAS_buffer_adequate (bsize : List GeomRec → Nat) (col : Collector) (a : AccelStruct)
    (h : col.getASGeometries a.filter ≠ []) :
    ((setupBLAS bsize col a).1).bufInitted = true ∧
    bsize (col.getASGeometries a.filter) ≤ ((setupBLAS bsize col a).1).bufSize ∧
    (setupBLAS bsize col a).2 = some
      { filter := a.filter,
        geomCount := (col.getASGeometries a.filter).length,
        reqSize := bsize (col.getASGeometries a.filter),
        fastTrace := !isFastBuild a.filter, update := false } ∧
    ((a.bufInitted = false ∨ a.bufSize < bsize (col.getASGeometries a.filter)) →
      (setupBLAS bsize col a).1 =
        { a with handleValid := true, bufInitted := true,
                 bufSize := bsize (col.getASGeometries a.filter), bufGen := a.bufGen + 1 }) ∧
    (a.bufInitted = true ∧ bsize (col.getASGeometries a.filter) ≤ a.bufSize →
      (setupBLAS bsize col a).1 = a) := by
  have hne : (col.getASGeometries a.filter).isEmpty = false := by
    cases hg : col.getASGeometries a.filter
    · exact absurd hg h
    · rfl
  unfold setupBLAS
  simp only [hne, Bool.false_eq_true, if_false]
  by_cases hc : (a.bufInitted = false ∨ a.bufSize < bsize (col.getASGeometries a.filter))
  · simp only [if_pos hc, createASBuffer, destroyAS]
    refine ⟨by simp, by simp, by simp, fun _ => by simp, fun hk => ?_⟩
    rcases hc with hc | hc
    · rw [hk.1] at hc
      exact absurd hc (by simp)
    · exact absurd hc (by omega)
  · have hc0 := hc
    simp only [if_neg hc]
    push_neg at hc
    have hb : a.bufInitted = true := by
      cases hb : a.bufInitted
      · exact absurd hb hc.1
      · rfl
    exact ⟨hb, hc.2, by simp, fun hk => absurd hk hc0, fun _ => by simp⟩

/-- C6 witness: an uninitialized structure over a one-record group gets a
fresh buffer of the required size and an enqueued build. -/
theorem setupBLAS_buffer_adequate_witness :
    (Collector.mk [{ filter := 10, transform := 0, uploadId := 1 }]).getASGeometries
      (({ filter := 10 } : AccelStruct).filter) ≠ [] ∧
    ((setupBLAS (fun g => g.length + 7)
        (Collector.mk [{ filter := 10, transform := 0, uploadId := 1 }])
        { filter := 10 }).1).bufInitted = true :=
  ⟨by decide,
   (setupBLAS_buffer_adequate (fun g => g.length + 7)
      (Collector.mk [{ filter := 10, transform := 0, uploadId := 1 }])
      { filter := 10 } (by decide)).1⟩

/-- C7: for every instance SetupTLASInstance fills from a structure with a
valid handle whose filter is one of the constructor-built filter groups: the
custom index has the dynamic flag bit set iff the filter is in the dynamic
change-frequency class; the traversal mask excludes the shadow-ray bit iff
the filter has the blend-additive or blend-under pass-through class; the
shader-binding-table record offset is the hit-group index matching the
pass-through class; and the force-opaque geometry flag is set exactly for
the opaque class, with the force-no-opaque flag as its complement. -/
theorem setupTLASInstance_classification (a : AccelStruct) (inst : TlasInstance)
    (hv : setupTLASInstance a = some inst) (hf : a.filter ∈ allFilters) :
    ((inst.customIndex &&& INSTANCE_CUSTOM_INDEX_FLAG_DYNAMIC ≠ 0) ↔
      a.filter &&& CF_DYNAMIC ≠ 0) ∧
    ((inst.mask &&& INSTANCE_MASK_HAS_SHADOWS = 0) ↔
      a.filter &&& (PT_BLEND_ADDITIVE ||| PT_BLEND_UNDER) ≠ 0) ∧
    (a.filter &&& PT_OPAQUE_BIT ≠ 0 →
      inst.sbtOffset = SBT_FULLY_OPAQUE_INDEX ∧
      inst.forceOpaqueFlag = true ∧ inst.forceNoOpaqueFlag = false) ∧
    (a.filter &&& PT_ALPHA_TESTED ≠ 0 → inst.sbtOffset = SBT_ALPHA_TESTED_INDEX) ∧
    (a.filter &&& PT_BLEND_ADDITIVE ≠ 0 → inst.sbtOffset = SBT_BLEND_ADDITIVE_INDEX) ∧
    (a.filter &&& PT_BLEND_UNDER ≠ 0 → inst.sbtOffset = SBT_BLEND_UNDER_INDEX) ∧
    (a.filter &&& PT_OPAQUE_BIT = 0 →
      inst.forceOpaqueFlag = false ∧ inst.forceNoOpaqueFlag = true) := by
  have hi : inst = tlasInstanceForFilter a.filter := by
    unfold setupTLASInstance at hv
    by_cases hb : a.handleValid
    · simp only [hb, if_true] at hv
      exact (Option.some_inj.mp hv).symm
    · simp [hb] at hv
  subst hi
  have hall : allFilters = [9, 17, 33, 65, 10, 18, 34, 66, 12, 20, 36, 68] := by decide
  rw [hall] at hf
  simp only [List.mem_cons, List.not_mem_nil, or_false] at hf
  rcases hf with h | h | h | h | h | h | h | h | h | h | h | h <;> rw [h] <;> decide

/-- C7 witness at the dynamic opaque filter group. -/
theorem setupTLASInstance_classification_witness :
    setupTLASInstance { filter := 12, handleValid := true } =
      some (tlasInstanceForFilter 12) ∧
    (((tlasInstanceForFilter 12).customIndex &&& INSTANCE_CUSTOM_INDEX_FLAG_DYNAMIC ≠ 0) ↔
      (12 : Nat) &&& CF_DYNAMIC ≠ 0) :=
  ⟨by decide,
   (setupTLASInstance_classification { filter := 12, handleValid := true }
      (tlasInstanceForFilter 12) (by decide) (by decide)).1⟩

/-- C8: shader-side previous-frame fallback.  In getTriangle the previous
positions equal the current positions whenever the previous base-vertex index
is the sentinel, and for static non-movable geometry regardless of the
sentinel; the same fallback defines the previous position and normal of
getTriangle_PositionAndNormal; getCurrentGeometryIndexByPrev reports a match
exactly when the map does not yield the sentinel, returning a defined pair in
either case; and previous-frame data is used exactly when the sentinel is
absent (for static geometry additionally requiring the movable flag). -/
theorem prevFrame_fallback (V M : Type) (env : VertexDataEnv V M)
    (inst : ShGeometryInstanceSh M) (ci prim : Nat) :
    (inst.prevBaseVertexIndex = UINT32_MAX →
      (getTriangle env inst ci prim).prevPositions = (getTriangle env inst ci prim).positions) ∧
    (ci &&& INSTANCE_CUSTOM_INDEX_FLAG_DYNAMIC ≠ INSTANCE_CUSTOM_INDEX_FLAG_DYNAMIC →
      inst.flags &&& GEOM_INST_FLAG_IS_MOVABLE = 0 →
      (getTriangle env inst ci prim).prevPositions = (getTriangle env inst ci prim).positions) ∧
    (inst.prevBaseVertexIndex = UINT32_MAX →
      (getTrianglePositionAndNormal env inst ci prim).1.2 =
        (getTrianglePositionAndNormal env inst ci prim).1.1 ∧
      (getTrianglePositionAndNormal env inst ci prim).2.2 =
        (getTrianglePositionAndNormal env inst ci prim).2.1) ∧
    (∀ (tab m : Nat → Nat) (pid pl : Nat),
      (getCurrentGeometryIndexByPrev tab m pid pl).1 =
        ((getCurrentGeometryIndexByPrev tab m pid pl).2 != UINT32_MAX)) ∧
    (ci &&& INSTANCE_CUSTOM_INDEX_FLAG_DYNAMIC = INSTANCE_CUSTOM_INDEX_FLAG_DYNAMIC →
      inst.prevBaseVertexIndex ≠ UINT32_MAX →
      (getTriangle env inst ci prim).prevPositions =
        (env.applyModel inst.prevModel (env.prevDynamicPositions
          (getPrevVertIndicesDynamic env inst.prevBaseVertexIndex inst.prevBaseIndexIndex prim).1),
         env.applyModel inst.prevModel (env.prevDynamicPositions
          (getPrevVertIndicesDynamic env inst.prevBaseVertexIndex inst.prevBaseIndexIndex prim).2.1),
         env.applyModel inst.prevModel (env.prevDynamicPositions
          (getPrevVertIndicesDynamic env inst.prevBaseVertexIndex inst.prevBaseIndexIndex prim).2.2))) ∧
    (ci &&& INSTANCE_CUSTOM_INDEX_FLAG_DYNAMIC ≠ INSTANCE_CUSTOM_INDEX_FLAG_DYNAMIC →
      inst.flags &&& GEOM_INST_FLAG_IS_MOVABLE ≠ 0 → inst.prevBaseVertexIndex ≠ UINT32_MAX →
      (getTriangle env inst ci prim).prevPositions =
        (env.applyModel inst.prevModel (env.staticPositions
          (getVertIndicesStatic env inst.baseVertexIndex inst.baseIndexIndex prim).1),
         env.applyModel inst.prevModel (env.staticPositions
          (getVertIndicesStatic env inst.baseVertexIndex inst.baseIndexIndex prim).2.1),
         env.applyModel inst.prevModel (env.staticPositions
          (getVertIndicesStatic env inst.baseVertexIndex inst.baseIndexIndex prim).2.2))) := by
  by_cases hd : (ci &&& INSTANCE_CUSTOM_INDEX_FLAG_DYNAMIC ==
      INSTANCE_CUSTOM_INDEX_FLAG_DYNAMIC : Bool)
  · have hd' : ci &&& INSTANCE_CUSTOM_INDEX_FLAG_DYNAMIC = INSTANCE_CUSTOM_INDEX_FLAG_DYNAMIC :=
      beq_iff_eq.mp hd
    refine ⟨?_, ?_, ?_, fun tab m pid pl => rfl, ?_, ?_⟩
    · intro hs
      simp [getTriangle, hd, hs]
    · intro hnd _
      exact absurd hd' (by simpa using hnd)
    · intro hs
      constructor <;> simp [getTrianglePositionAndNormal, hd, hs]
    · intro _ hnp
      simp [getTriangle, hd, hnp]
    · intro hnd _ _
      exact absurd hd' (by simpa using hnd)
  · have hd' : ci &&& INSTANCE_CUSTOM_INDEX_FLAG_DYNAMIC ≠ INSTANCE_CUSTOM_INDEX_FLAG_DYNAMIC := by
      intro hk
      exact hd (beq_iff_eq.mpr hk)
    refine ⟨?_, ?_, ?_, fun tab m pid pl => rfl, ?_, ?_⟩
    · intro hs
      simp [getTriangle, hd, hs]
    · intro _ hm
      simp [getTriangle, hd, hm]
    · intro hs
      constructor <;> simp [getTrianglePositionAndNormal, hd, hs]
    · intro hk
      exact absurd hk hd'
    · intro _ hm hnp
      simp [getTriangle, hd, hm, hnp]

/-- Concrete environment instantiation used by the C8 witness. -/
def natVertexDataEnv : VertexDataEnv Nat Nat :=
  { staticIndices := fun n => n + 1
    dynamicIndices := fun n => n + 2
    prevDynamicIndices := fun n => n + 3
    staticPositions := fun n => 10 * n
    staticNormals := fun n => 10 * n + 1
    dynamicPositions := fun n => 10 * n + 2
    dynamicNormals := fun n => 10 * n + 3
    prevDynamicPositions := fun n => 10 * n + 4
    applyModel := fun m v => m + v
    applyModel3 := fun m v => m * 1000 + v
    combineBary := fun a b c => a + b + c }

/-- A dynamic geometry record with the previous-data sentinel set. -/
def sentinelInst : ShGeometryInstanceSh Nat :=
  { model := 5, prevModel := 9, flags := 0, baseVertexIndex := 0,
    baseIndexIndex := UINT32_MAX,
    prevBaseVertexIndex := UINT32_MAX, prevBaseIndexIndex := UINT32_MAX }

/-- C8 witness: under the sentinel, the previous positions of a concrete
dynamic fetch equal its current positions. -/
theorem prevFrame_fallback_witness :
    sentinelInst.prevBaseVertexIndex = UINT32_MAX ∧
    (getTriangle natVertexDataEnv sentinelInst 1 0).prevPositions =
      (getTriangle natVertexDataEnv sentinelInst 1 0).positions :=
  ⟨rfl, (prevFrame_fallback Nat Nat natVertexDataEnv sentinelInst 1 0).1 rfl⟩

/-- C10: an upload whose classification is neither static nor static-movable
is rejected by AddStaticGeometry with the sentinel return and no collector
change, and an upload whose classification is not dynamic is likewise
rejected by AddDynamicGeometry. -/
theorem addGeometry_rejects_wrong_classification (s : ASState) (info : RgGeometryUploadInfo)
    (frame : Nat) :
    (info.geomType ≠ RgGeometryType.STATIC → info.geomType ≠ RgGeometryType.STATIC_MOVABLE →
      addStaticGeometry s info = (s, UINT32_MAX)) ∧
    (info.geomType ≠ RgGeometryType.DYNAMIC →
      addDynamicGeometry s info frame = (s, UINT32_MAX)) := by
  constructor
  · intro h1 h2
    unfold addStaticGeometry
    simp [h1, h2]
  · intro h
    unfold addDynamicGeometry
    simp [h]

/-- C10 witness: a dynamic upload is rejected by AddStaticGeometry. -/
theorem addGeometry_rejects_wrong_classification_witness :
    addStaticGeometry initState
      { geomType := RgGeometryType.DYNAMIC, passThroughBit := 8, transform := 0, uploadId := 0 } =
      (initState, UINT32_MAX) :=
  (addGeometry_rejects_wrong_classification initState
    { geomType := RgGeometryType.DYNAMIC, passThroughBit := 8, transform := 0, uploadId := 0 }
    0).1 (by decide) (by decide)
